import Mathlib

/-!
Verification of the evaluation script `model-specific-evals/mxbai-large.py`.

The script wraps a sentence-embedding model in two thin adapters
(`CustomDRESModel` for retrieval, `CustomRerankingModel` for reranking),
loads benchmark datasets, and delegates scoring to external evaluators.
We shallowly embed the adapter methods, the reranking statistics
computation (`RerankingTask.load_data`), the fixed configuration
constants, and the task loops.  External collaborators (the base model's
`encode`, the dataset loader, the evaluators) are modelled only through
the data each call site passes to them: an `EncodeCall` records exactly
the arguments the adapter hands to `self.model.encode`.
-/

/-- A Python runtime value, as far as the script manipulates them inside
keyword-argument dictionaries (strings, ints, bools, `None`). -/
inductive PyVal where
  | str (s : String)
  | int (n : Int)
  | bool (b : Bool)
  | none
  deriving DecidableEq, Repr

/-- Python exceptions the embedded code can raise. -/
inductive PyError where
  | zeroDivisionError
  | typeError
  | other (msg : String)
  deriving DecidableEq, Repr

/-- A `**kwargs` dictionary: keyword-argument names mapped to values.
Lookup takes the first matching key, as for a Python dict whose keys are
unique. -/
abbrev Kwargs := List (String × PyVal)

/-- `d[k]` as an `Option`: the value of key `k` in dictionary `d`. -/
def dictLookup (d : Kwargs) (k : String) : Option PyVal :=
  match d with
  | [] => Option.none
  | (k', v) :: rest => if k' = k then some v else dictLookup rest k

/-- `d.pop(k, None)`'s effect on the dictionary: remove key `k` if
present; no error when absent. -/
def dictErase (d : Kwargs) (k : String) : Kwargs :=
  match d with
  | [] => []
  | (k', v) :: rest => if k' = k then dictErase rest k else (k', v) :: dictErase rest k

/-- `d[k] = v`: bind key `k` to value `v` (replacing any earlier binding). -/
def dictInsert (d : Kwargs) (k : String) (v : PyVal) : Kwargs :=
  (k, v) :: dictErase d k

/-- The arguments a call site passes to the base model's
`SentenceTransformer.encode`: the sentences, the value explicitly passed
as `prompt=` (if any), the value explicitly passed as `batch_size=`
(if any), and the residual `**kwargs` dictionary forwarded to it. -/
structure EncodeCall where
  sentences : List String
  prompt : Option PyVal
  batch_size : Option PyVal
  kwargs : Kwargs
  deriving DecidableEq, Repr

/-- The prompt value the base encoder receives: the explicitly passed
`prompt=` argument if there is one, otherwise whatever `"prompt"` entry
the forwarded `**kwargs` binds to that parameter. -/
def EncodeCall.receivedPrompt (c : EncodeCall) : Option PyVal :=
  match c.prompt with
  | some v => some v
  | Option.none => dictLookup c.kwargs "prompt"

/-- Python's `str.isspace` test on a character, for the characters
`str.strip()` removes. -/
def pyIsSpace (c : Char) : Bool :=
  c = ' ' || c = '\t' || c = '\n' || c = '\r' || c = '\x0b' || c = '\x0c'

/-- Python's `str.strip()`: remove leading and trailing whitespace. -/
def pyStrip (s : String) : String :=
  ⟨((s.data.dropWhile pyIsSpace).reverse.dropWhile pyIsSpace).reverse⟩

/-- A corpus document: `title` is `doc.get('title', '')` (absent title
modelled as `Option.none`), `text` is `doc['text']`. -/
structure Doc where
  title : Option String
  text : String
  deriving DecidableEq, Repr

/-- Line 72: `(doc.get('title', '') + ' ' + doc['text']).strip()`. -/
def docSentence (d : Doc) : String :=
  pyStrip (d.title.getD "" ++ " " ++ d.text)

/-- Line 47: the fixed instruction prefix used for query encoding. -/
def QUERY_PROMPT : String :=
  "Represent this sentence for searching relevant passages: "

/-- The retrieval adapter (lines 52-78): holds the base model's prompt
string; the base model itself is external and appears only through the
`EncodeCall` each method produces. -/
structure CustomDRESModel where
  prompt : String
  deriving DecidableEq, Repr

/-- Lines 57-64, `CustomDRESModel.encode_queries(self, queries, *,
batch_size, **kwargs)`: delegates `self.model.encode(queries,
prompt=self.prompt, batch_size=batch_size, **kwargs)`.  If the caller's
residual `kwargs` also binds `"prompt"`, Python raises a `TypeError`
for a duplicate keyword argument at the delegated call. -/
def CustomDRESModel.encode_queries (m : CustomDRESModel) (queries : List String)
    (batch_size : PyVal) (kwargs : Kwargs) : Except PyError EncodeCall :=
  if (dictLookup kwargs "prompt").isSome then .error .typeError
  else .ok ⟨queries, some (.str m.prompt), some batch_size, kwargs⟩

/-- Lines 66-78, `CustomDRESModel.encode_corpus(self, corpus,
batch_size, **kwargs)`: pops `'request_qid'` from `kwargs`, flattens
each document to `(title + ' ' + text).strip()`, and delegates
`self.model.encode(sentences, batch_size=batch_size, **kwargs)`.
No other key is removed; in particular a `'prompt_name'` entry stays in
the forwarded `kwargs`. -/
def CustomDRESModel.encode_corpus (m : CustomDRESModel) (corpus : List Doc)
    (batch_size : PyVal) (kwargs : Kwargs) : EncodeCall :=
  ⟨corpus.map docSentence, Option.none, some batch_size, dictErase kwargs "request_qid"⟩

/-- Line 87: `retriever = CustomDRESModel(model=model, prompt=QUERY_PROMPT)`. -/
def retriever : CustomDRESModel := ⟨QUERY_PROMPT⟩

/-- The reranking adapter (lines 116-134). -/
structure CustomRerankingModel where
  prompt : String
  deriving DecidableEq, Repr

/-- Lines 121-127, `CustomRerankingModel.encode_queries(self, queries,
*, prompt_name=None, **kwargs)`: the keyword-only parameter
`prompt_name` absorbs any `'prompt_name'` entry of the caller's keyword
arguments, is never read, and is not forwarded; the method delegates
`self.model.encode(queries, prompt=self.prompt, **kwargs)`.  `kwargs`
here is the caller's full keyword-argument dictionary, binding of
`prompt_name` included. -/
def CustomRerankingModel.encode_queries (m : CustomRerankingModel)
    (queries : List String) (kwargs : Kwargs) : Except PyError EncodeCall :=
  let rest := dictErase kwargs "prompt_name"
  if (dictLookup rest "prompt").isSome then .error .typeError
  else .ok ⟨queries, some (.str m.prompt), Option.none, rest⟩

/-- Lines 129-134, `CustomRerankingModel.encode_corpus(self, corpus, *,
prompt_name=None, **kwargs)`: `prompt_name` is absorbed, never read and
not forwarded; the method delegates `self.model.encode(corpus, **kwargs)`. -/
def CustomRerankingModel.encode_corpus (m : CustomRerankingModel)
    (corpus : List String) (kwargs : Kwargs) : EncodeCall :=
  ⟨corpus, Option.none, Option.none, dictErase kwargs "prompt_name"⟩

/-- Line 217: `model = CustomRerankingModel(model=model, prompt=QUERY_PROMPT)`. -/
def rerankModel : CustomRerankingModel := ⟨QUERY_PROMPT⟩

/-- A reranking sample as loaded from the dataset split: fields
`query`, `positive` (list of strings), `negative` (list of strings). -/
structure Sample where
  query : String
  positive : List String
  negative : List String
  deriving DecidableEq, Repr

/-- Python's `/` between numbers: true division, raising
`ZeroDivisionError` on a zero denominator. -/
def pyDiv (a b : ℚ) : Except PyError ℚ :=
  if b = 0 then .error .zeroDivisionError else .ok (a / b)

/-- Line 182: `set(item for sublist in positive for item in sublist)` —
the distinct positive candidate strings across all samples. -/
def uniquePositives (samples : List Sample) : Finset String :=
  ((samples.map Sample.positive).flatten).toFinset

/-- Line 183: the distinct negative candidate strings across all samples. -/
def uniqueNegatives (samples : List Sample) : Finset String :=
  ((samples.map Sample.negative).flatten).toFinset

/-- The statistics `RerankingTask.load_data` computes for logging
(lines 179-186). -/
structure RerankStats where
  num_samples : Nat
  num_positive : Nat
  num_negative : Nat
  num_unique_positive : Nat
  num_unique_negative : Nat
  avg_query_len : ℚ
  avg_positive_len : ℚ
  avg_negative_len : ℚ
  deriving DecidableEq, Repr

/-- Lines 169-199, `RerankingTask.load_data` after the external
`load_from_disk` call: extracts the query/positive/negative columns and
computes the logged statistics, in source order; the three average
lengths are Python `/` divisions with no guard, so they raise
`ZeroDivisionError` when their denominator is zero.  Returns the
statistics together with the samples (the Python function returns the
samples and logs the statistics). -/
def load_data (samples : List Sample) : Except PyError (RerankStats × List Sample) := do
  let query := samples.map Sample.query
  let positive := samples.map Sample.positive
  let negative := samples.map Sample.negative
  let num_samples := query.length
  let num_positive := (positive.map List.length).sum
  let num_negative := (negative.map List.length).sum
  let unique_positive := positive.flatten.toFinset
  let unique_negative := negative.flatten.toFinset
  let avg_query_len ←
    pyDiv ((query.map (fun q => (q.length : ℚ))).sum) (num_samples : ℚ)
  let avg_positive_len ←
    pyDiv (∑ p ∈ unique_positive, (p.length : ℚ)) (unique_positive.card : ℚ)
  let avg_negative_len ←
    pyDiv (∑ n ∈ unique_negative, (n.length : ℚ)) (unique_negative.card : ℚ)
  return (⟨num_samples, num_positive, num_negative,
           unique_positive.card, unique_negative.card,
           avg_query_len, avg_positive_len, avg_negative_len⟩, samples)

/-- Lines 82-85: the fixed retrieval task list. -/
def RETRIEVAL_TASKS : List String := ["retrieval-s2p", "retrieval-p2p"]

/-- Lines 211-214: the fixed reranking task list. -/
def RERANKING_TASKS : List String := ["reranking-s2p", "reranking-p2p"]

/-- Line 108: the cutoff values passed as `k_values` to
`RetrievalEvaluator.evaluate`. -/
def K_VALUES : List Nat := [1, 5, 10, 20, 50, 100]

/-- One iteration of the retrieval loop (lines 89-109): the evaluator
invocation it performs, recording the task name, the fixed
`encode_kwargs` and the `k_values` handed to
`RetrievalEvaluator.evaluate`. -/
structure RetrievalRunCall where
  task : String
  batch_size : Nat
  show_progress_bar : Bool
  k_values : List Nat
  deriving DecidableEq, Repr

/-- The sequence of evaluator invocations the retrieval loop performs:
one per entry of `RETRIEVAL_TASKS`, each with `batch_size=32`,
`show_progress_bar=True` and `k_values=[1, 5, 10, 20, 50, 100]`. -/
def retrievalRun : List RetrievalRunCall :=
  RETRIEVAL_TASKS.map (fun t => ⟨t, 32, true, K_VALUES⟩)

/-- Both task loops (lines 89-109 and 220-235) run their body on each
task name in order, with no `try`/`except` anywhere in the script: the
body's external calls (data loading, evaluation) may raise, and a raise
escapes the loop.  `runTasks body tasks` returns the list of task names
whose body was started, paired with the first error raised (if any):
after an error no further task is attempted. -/
def runTasks {α : Type} (body : String → Except PyError α) :
    List String → List String × Option PyError
  | [] => ([], Option.none)
  | t :: ts =>
    match body t with
    | .error e => ([t], some e)
    | .ok _ =>
      let r := runTasks body ts
      (t :: r.1, r.2)

/-! ### Dictionary lemmas -/

theorem dictLookup_dictErase (d : Kwargs) (k k' : String) :
    dictLookup (dictErase d k) k' = if k' = k then Option.none else dictLookup d k' := by
  induction d with
  | nil => simp [dictErase, dictLookup]
  | cons p rest ih =>
    rcases p with ⟨pk, pv⟩
    by_cases hpk : pk = k
    · subst hpk
      by_cases hk' : k' = pk
      · subst hk'
        simpa [dictErase, dictLookup] using ih
      · have hne : pk ≠ k' := fun h => hk' h.symm
        simp [dictErase, dictLookup, ih, hk', hne]
    · by_cases hk' : k' = k
      · subst hk'
        have hne : pk ≠ k' := hpk
        simp [dictErase, dictLookup, hne, ih]
      · simp [dictErase, dictLookup, hpk, ih, hk']

theorem dictLookup_dictErase_self (d : Kwargs) (k : String) :
    dictLookup (dictErase d k) k = Option.none := by
  simp [dictLookup_dictErase]

theorem dictLookup_dictErase_ne (d : Kwargs) {k k' : String} (h : k' ≠ k) :
    dictLookup (dictErase d k) k' = dictLookup d k' := by
  simp [dictLookup_dictErase, h]

theorem dictErase_dictErase (d : Kwargs) (k : String) :
    dictErase (dictErase d k) k = dictErase d k := by
  induction d with
  | nil => rfl
  | cons p rest ih =>
    rcases p with ⟨pk, pv⟩
    by_cases hpk : pk = k
    · simp [dictErase, hpk, ih]
    · simp [dictErase, hpk, ih]

theorem dictErase_dictInsert_self (d : Kwargs) (k : String) (v : PyVal) :
    dictErase (dictInsert d k v) k = dictErase d k := by
  simp [dictInsert, dictErase, dictErase_dictErase]

/-! ### Claim theorems -/

/-- C1: the spec claims `CustomDRESModel.encode_corpus` explicitly
removes any prompt-name entry from the keyword arguments before
delegating, so the base encoder never receives it.  The code pops only
`'request_qid'`: at the concrete call below, the `'prompt_name'` entry
is still present in the keyword arguments the adapter forwards to the
base `encode` call, contradicting the claim (and the script's own
comment "Ignore prompt_name for corpus encoding" and its log line
"Encoding of CORPUS with no Prompt."). -/
theorem c1_prompt_name_reaches_base_encode :
    dictLookup (retriever.encode_corpus [⟨some "Doc", "text"⟩] (.int 32)
      [("prompt_name", .str "query"), ("show_progress_bar", .bool true)]).kwargs
      "prompt_name" = some (.str "query") := by
  rfl

/-- C2: for both adapters, `encode_queries` delegates to the base
model's `encode` with `QUERY_PROMPT` supplied as the prompt, and
`encode_corpus` delegates without it: provided the caller's keyword
arguments do not themselves bind `"prompt"`, both query-side delegated
calls succeed and the base encoder receives exactly `QUERY_PROMPT`,
while both corpus-side delegated calls hand the base encoder no prompt
at all. -/
theorem c2_query_prompt_corpus_no_prompt (queries rcorpus : List String)
    (corpus : List Doc) (bs : PyVal) (kwargs : Kwargs)
    (h : dictLookup kwargs "prompt" = Option.none) :
    (∃ c, retriever.encode_queries queries bs kwargs = .ok c ∧
        c.receivedPrompt = some (.str QUERY_PROMPT)) ∧
    (retriever.encode_corpus corpus bs kwargs).receivedPrompt = Option.none ∧
    (∃ c, rerankModel.encode_queries queries kwargs = .ok c ∧
        c.receivedPrompt = some (.str QUERY_PROMPT)) ∧
    (rerankModel.encode_corpus rcorpus kwargs).receivedPrompt = Option.none := by
  have h1 : dictLookup (dictErase kwargs "request_qid") "prompt" = Option.none := by
    rw [dictLookup_dictErase_ne kwargs (by decide)]; exact h
  have h2 : dictLookup (dictErase kwargs "prompt_name") "prompt" = Option.none := by
    rw [dictLookup_dictErase_ne kwargs (by decide)]; exact h
  refine ⟨⟨⟨queries, some (.str QUERY_PROMPT), some bs, kwargs⟩, ?_, rfl⟩, ?_,
      ⟨⟨queries, some (.str QUERY_PROMPT), Option.none, dictErase kwargs "prompt_name"⟩,
        ?_, rfl⟩, ?_⟩
  · simp [CustomDRESModel.encode_queries, retriever, h]
  · simp [CustomDRESModel.encode_corpus, EncodeCall.receivedPrompt, h1]
  · simp [CustomRerankingModel.encode_queries, rerankModel, h2]
  · simp [CustomRerankingModel.encode_corpus, EncodeCall.receivedPrompt, h2]

/-- Witness for C2: at empty keyword arguments, the retrieval adapter's
query call carries `QUERY_PROMPT` and its corpus call carries none. -/
theorem c2_query_prompt_corpus_no_prompt_witness :
    (∃ c, retriever.encode_queries ["q"] (.int 32) [] = .ok c ∧
        c.receivedPrompt = some (.str QUERY_PROMPT)) ∧
    (retriever.encode_corpus [⟨some "T", "x"⟩] (.int 32) []).receivedPrompt = Option.none ∧
    (∃ c, rerankModel.encode_queries ["q"] [] = .ok c ∧
        c.receivedPrompt = some (.str QUERY_PROMPT)) ∧
    (rerankModel.encode_corpus ["d"] []).receivedPrompt = Option.none :=
  c2_query_prompt_corpus_no_prompt ["q"] ["d"] [⟨some "T", "x"⟩] (.int 32) [] rfl

/-- C3: the text submitted to the document encoder is
`(title + ' ' + text).strip()`, and when the title is the empty string
this equals `text.strip()` with no leftover double space. -/
theorem c3_doc_flattening (d : Doc) :
    docSentence d = pyStrip (d.title.getD "" ++ " " ++ d.text) ∧
    (d.title.getD "" = "" → docSentence d = pyStrip d.text) := by
  refine ⟨rfl, fun h => ?_⟩
  show pyStrip (d.title.getD "" ++ " " ++ d.text) = pyStrip d.text
  rw [h]
  rfl

/-- Witness for C3: a document with an empty title flattens to its
stripped text. -/
theorem c3_doc_flattening_witness :
    docSentence ⟨some "", "  passage text  "⟩ = pyStrip "  passage text  " :=
  (c3_doc_flattening ⟨some "", "  passage text  "⟩).2 rfl

/-- C6: the reranking adapter accepts a `prompt_name` keyword parameter
in both `encode_queries` and `encode_corpus` and ignores it: with a
`prompt_name` entry bound to any value `v`, `encode_queries` still
succeeds (absent a duplicate `"prompt"` binding), the keyword arguments
forwarded to the base `encode` contain no `prompt_name` entry, and both
methods return exactly what they return without the entry, so the
entry's value has no effect on the result. -/
theorem c6_prompt_name_accepted_and_ignored (queries rcorpus : List String)
    (kwargs : Kwargs) (v : PyVal)
    (h : dictLookup kwargs "prompt" = Option.none) :
    (∃ c, rerankModel.encode_queries queries (dictInsert kwargs "prompt_name" v) = .ok c ∧
        dictLookup c.kwargs "prompt_name" = Option.none) ∧
    rerankModel.encode_queries queries (dictInsert kwargs "prompt_name" v)
      = rerankModel.encode_queries queries kwargs ∧
    dictLookup (rerankModel.encode_corpus rcorpus
        (dictInsert kwargs "prompt_name" v)).kwargs "prompt_name" = Option.none ∧
    rerankModel.encode_corpus rcorpus (dictInsert kwargs "prompt_name" v)
      = rerankModel.encode_corpus rcorpus kwargs := by
  have h2 : dictLookup (dictErase kwargs "prompt_name") "prompt" = Option.none := by
    rw [dictLookup_dictErase_ne kwargs (by decide)]; exact h
  refine ⟨⟨⟨queries, some (.str QUERY_PROMPT), Option.none, dictErase kwargs "prompt_name"⟩,
      ?_, dictLookup_dictErase_self kwargs _⟩, ?_, ?_, ?_⟩
  · simp [CustomRerankingModel.encode_queries, rerankModel, dictErase_dictInsert_self, h2]
  · simp [CustomRerankingModel.encode_queries, dictErase_dictInsert_self]
  · simp [CustomRerankingModel.encode_corpus, dictErase_dictInsert_self,
      dictLookup_dictErase_self]
  · simp [CustomRerankingModel.encode_corpus, dictErase_dictInsert_self]

/-- Witness for C6 at empty keyword arguments and
`prompt_name="query"`. -/
theorem c6_prompt_name_accepted_and_ignored_witness :
    (∃ c, rerankModel.encode_queries ["q"] (dictInsert [] "prompt_name" (.str "query")) = .ok c ∧
        dictLookup c.kwargs "prompt_name" = Option.none) ∧
    rerankModel.encode_queries ["q"] (dictInsert [] "prompt_name" (.str "query"))
      = rerankModel.encode_queries ["q"] [] ∧
    dictLookup (rerankModel.encode_corpus ["d"]
        (dictInsert [] "prompt_name" (.str "query"))).kwargs "prompt_name" = Option.none ∧
    rerankModel.encode_corpus ["d"] (dictInsert [] "prompt_name" (.str "query"))
      = rerankModel.encode_corpus ["d"] [] :=
  c6_prompt_name_accepted_and_ignored ["q"] ["d"] [] (.str "query") rfl

/-- C10: `CustomDRESModel.encode_corpus` removes exactly the
`'request_qid'` key from the caller's keyword arguments (whether present
or not, without error when absent) and forwards every other entry — in
particular any `'prompt_name'` entry — unchanged to the base model's
encode call. -/
theorem c10_only_request_qid_removed (m : CustomDRESModel) (corpus : List Doc)
    (bs : PyVal) (kwargs : Kwargs) :
    (m.encode_corpus corpus bs kwargs).kwargs = dictErase kwargs "request_qid" ∧
    dictLookup (m.encode_corpus corpus bs kwargs).kwargs "request_qid" = Option.none ∧
    (∀ k, k ≠ "request_qid" →
      dictLookup (m.encode_corpus corpus bs kwargs).kwargs k = dictLookup kwargs k) :=
  ⟨rfl, dictLookup_dictErase_self kwargs _,
    fun _ hk => dictLookup_dictErase_ne kwargs hk⟩

/-- Witness for C10: with both a `request_qid` and a `prompt_name`
entry present, the forwarded `prompt_name` entry is unchanged. -/
theorem c10_only_request_qid_removed_witness :
    dictLookup (retriever.encode_corpus [] (.int 32)
      [("request_qid", .str "q7"), ("prompt_name", .str "query")]).kwargs "prompt_name"
      = dictLookup [("request_qid", .str "q7"), ("prompt_name", .str "query")] "prompt_name" :=
  (c10_only_request_qid_removed retriever [] (.int 32)
    [("request_qid", .str "q7"), ("prompt_name", .str "query")]).2.2 "prompt_name" (by decide)

/-- C7: every evaluator invocation performed by the retrieval loop —
one per task of the fixed task list — passes exactly the cutoff set
`[1, 5, 10, 20, 50, 100]` as the `k_values` of the evaluate step. -/
theorem c7_fixed_k_values (c : RetrievalRunCall) (hc : c ∈ retrievalRun) :
    c.k_values = [1, 5, 10, 20, 50, 100] ∧ c.task ∈ RETRIEVAL_TASKS := by
  rcases List.mem_map.mp hc with ⟨t, ht, rfl⟩
  exact ⟨rfl, ht⟩

/-- Witness for C7 at the loop's first invocation. -/
theorem c7_fixed_k_values_witness :
    (⟨"retrieval-s2p", 32, true, K_VALUES⟩ : RetrievalRunCall).k_values
      = [1, 5, 10, 20, 50, 100] :=
  (c7_fixed_k_values ⟨"retrieval-s2p", 32, true, K_VALUES⟩ (by decide)).1

/-- C8: the task loops contain no exception handling, so the first task
whose body raises aborts the whole run: if every task before `t`
succeeds and `t`'s body raises `e`, the run over `ts₁ ++ t :: ts₂`
starts exactly the tasks `ts₁ ++ [t]` — no task of `ts₂` is attempted —
and terminates with the error `e`, whatever the error is. -/
theorem c8_first_failure_aborts_run {α : Type} (body : String → Except PyError α)
    (ts₁ ts₂ : List String) (t : String) (e : PyError)
    (hok : ∀ t' ∈ ts₁, ∃ a, body t' = .ok a) (hfail : body t = .error e) :
    runTasks body (ts₁ ++ t :: ts₂) = (ts₁ ++ [t], some e) := by
  induction ts₁ with
  | nil =>
    simp [runTasks, hfail]
  | cons a ts ih =>
    rcases hok a (by simp) with ⟨va, hva⟩
    have ih' := ih (fun t' ht' => hok t' (by simp [ht']))
    simp [runTasks, hva, ih']

/-- Witness for C8: a body that fails on the first retrieval task stops
the run there; the second task of `RETRIEVAL_TASKS` is never started. -/
theorem c8_first_failure_aborts_run_witness :
    runTasks (fun _ => (Except.error (PyError.other "load failed") : Except PyError Unit))
      RETRIEVAL_TASKS = (["retrieval-s2p"], some (PyError.other "load failed")) :=
  c8_first_failure_aborts_run (fun _ => Except.error (PyError.other "load failed"))
    [] ["retrieval-p2p"] "retrieval-s2p" (PyError.other "load failed")
    (by simp) rfl

/-- C9: `load_data` divides with no guard, so a split with zero
samples, or with zero distinct positive strings, or zero distinct
negative strings, raises `ZeroDivisionError` while computing the
average lengths — before the samples are ever returned for scoring. -/
theorem c9_degenerate_split_division_by_zero (samples : List Sample)
    (h : samples = [] ∨ uniquePositives samples = ∅ ∨ uniqueNegatives samples = ∅) :
    load_data samples = .error .zeroDivisionError := by
  unfold load_data pyDiv
  simp only [bind, Except.bind]
  split
  next x err heq =>
    split at heq
    · injection heq with h1
      subst h1
      rfl
    · exact Except.noConfusion heq
  next x v hc1 =>
    split
    next x2 err heq =>
      split at heq
      · injection heq with h1
        subst h1
        rfl
      · exact Except.noConfusion heq
    next x2 v2 hc2 =>
      split
      next x3 err heq =>
        split at heq
        · injection heq with h1
          subst h1
          rfl
        · exact Except.noConfusion heq
      next x3 v3 hc3 =>
        exfalso
        rcases h with h | h | h
        · rw [if_pos (by simp [h])] at hc1
          exact Except.noConfusion hc1
        · rw [if_pos (by unfold uniquePositives at h; rw [h]; simp)] at hc2
          exact Except.noConfusion hc2
        · rw [if_pos (by unfold uniqueNegatives at h; rw [h]; simp)] at hc3
          exact Except.noConfusion hc3

/-- Witness for C9: the empty split raises `ZeroDivisionError`. -/
theorem c9_degenerate_split_division_by_zero_witness :
    load_data [] = .error .zeroDivisionError :=
  c9_degenerate_split_division_by_zero [] (Or.inl rfl)

/-- A list with a repeated element deduplicates to a strictly shorter
list. -/
theorem dedup_length_lt_of_not_nodup {α : Type} [DecidableEq α] {l : List α}
    (h : ¬ l.Nodup) : l.dedup.length < l.length := by
  rcases Nat.lt_or_ge l.dedup.length l.length with hlt | hge
  · exact hlt
  · exfalso
    have hsub := List.dedup_sublist l
    have heq : l.dedup = l := hsub.eq_of_length (le_antisymm hsub.length_le hge)
    exact h (heq ▸ List.nodup_dedup l)

/-- A string occurring in two distinct member lists makes the flattened
list contain a duplicate. -/
theorem not_nodup_flatten_of_mem_two {α : Type} {L : List (List α)} {s : α}
    {i j : Nat} (hi : i < L.length) (hj : j < L.length) (hij : i ≠ j)
    (hsi : s ∈ L[i]) (hsj : s ∈ L[j]) : ¬ L.flatten.Nodup := by
  intro hnd
  have hpw := (List.nodup_flatten.mp hnd).2
  rcases Nat.lt_or_ge i j with hlt | hge
  · exact (List.pairwise_iff_getElem.mp hpw i j hi hj hlt) hsi hsj
  · have hlt : j < i := Nat.lt_of_le_of_ne hge (fun hh => hij hh.symm)
    exact (List.pairwise_iff_getElem.mp hpw j i hj hi hlt) hsj hsi

/-- C4: the unique-positive and unique-negative counts of
`load_data` are computed by value equality across all samples: a
positive string occurring in two different samples makes the unique
positive count strictly smaller than the total positive count, and when
the flattened candidate strings are pairwise distinct the unique count
equals the total count (shown for positives and negatives). -/
theorem c4_unique_counts_value_equality (samples : List Sample) :
    (∀ (s : String) (i j : Nat) (hi : i < samples.length) (hj : j < samples.length),
        i ≠ j → s ∈ samples[i].positive → s ∈ samples[j].positive →
        (uniquePositives samples).card
          < ((samples.map Sample.positive).map List.length).sum) ∧
    ((samples.map Sample.positive).flatten.Nodup →
        (uniquePositives samples).card
          = ((samples.map Sample.positive).map List.length).sum) ∧
    ((samples.map Sample.negative).flatten.Nodup →
        (uniqueNegatives samples).card
          = ((samples.map Sample.negative).map List.length).sum) := by
  refine ⟨?_, ?_, ?_⟩
  · intro s i j hi hj hij hsi hsj
    have hi' : i < (samples.map Sample.positive).length := by simpa using hi
    have hj' : j < (samples.map Sample.positive).length := by simpa using hj
    have hsi' : s ∈ (samples.map Sample.positive)[i] := by
      simpa using hsi
    have hsj' : s ∈ (samples.map Sample.positive)[j] := by
      simpa using hsj
    have hnd := not_nodup_flatten_of_mem_two hi' hj' hij hsi' hsj'
    have hlt := dedup_length_lt_of_not_nodup hnd
    calc (uniquePositives samples).card
        = (samples.map Sample.positive).flatten.dedup.length := List.card_toFinset _
      _ < (samples.map Sample.positive).flatten.length := hlt
      _ = ((samples.map Sample.positive).map List.length).sum :=
          List.length_flatten _
  · intro hnd
    unfold uniquePositives
    rw [List.toFinset_card_of_nodup hnd, List.length_flatten]
  · intro hnd
    unfold uniqueNegatives
    rw [List.toFinset_card_of_nodup hnd, List.length_flatten]

/-- Witness for C4: with the positive string `"p"` in both samples the
unique positive count (1) is below the total (2); the two distinct
negatives give unique count equal to total. -/
theorem c4_unique_counts_value_equality_witness :
    ((uniquePositives [⟨"q1", ["p"], ["n1"]⟩, ⟨"q2", ["p"], ["n2"]⟩]).card
      < (([⟨"q1", ["p"], ["n1"]⟩, ⟨"q2", ["p"], ["n2"]⟩].map Sample.positive).map
          List.length).sum) ∧
    ((uniqueNegatives [⟨"q1", ["p"], ["n1"]⟩, ⟨"q2", ["p"], ["n2"]⟩]).card
      = (([⟨"q1", ["p"], ["n1"]⟩, ⟨"q2", ["p"], ["n2"]⟩].map Sample.negative).map
          List.length).sum) :=
  ⟨(c4_unique_counts_value_equality [⟨"q1", ["p"], ["n1"]⟩, ⟨"q2", ["p"], ["n2"]⟩]).1
      "p" 0 1 (by decide) (by decide) (by decide) (by decide) (by decide),
   (c4_unique_counts_value_equality [⟨"q1", ["p"], ["n1"]⟩, ⟨"q2", ["p"], ["n2"]⟩]).2.2
      (by decide)⟩

/-- C5: whenever `load_data` succeeds, the average query length it
logged is the sum of query lengths divided by the total sample count,
while the average positive and negative lengths are the sums of lengths
over the deduplicated positive and negative string sets divided by the
unique counts — not by total occurrence counts. -/
theorem c5_average_length_denominators (samples : List Sample)
    (st : RerankStats) (rest : List Sample)
    (h : load_data samples = .ok (st, rest)) :
    st.avg_query_len
        = (samples.map (fun sm => ((sm.query.length : ℚ)))).sum / (samples.length : ℚ) ∧
    st.avg_positive_len
        = (∑ p ∈ uniquePositives samples, (p.length : ℚ))
          / ((uniquePositives samples).card : ℚ) ∧
    st.avg_negative_len
        = (∑ n ∈ uniqueNegatives samples, (n.length : ℚ))
          / ((uniqueNegatives samples).card : ℚ) := by
  unfold load_data pyDiv at h
  simp only [bind, Except.bind] at h
  split at h
  next x err heq => exact Except.noConfusion h
  next x v hc1 =>
    split at hc1
    · exact Except.noConfusion hc1
    injection hc1 with hv
    split at h
    next x2 err heq => exact Except.noConfusion h
    next x2 v2 hc2 =>
      split at hc2
      · exact Except.noConfusion hc2
      injection hc2 with hv2
      split at h
      next x3 err heq => exact Except.noConfusion h
      next x3 v3 hc3 =>
        split at hc3
        · exact Except.noConfusion hc3
        injection hc3 with hv3
        simp only [pure, Except.pure, Except.ok.injEq, Prod.mk.injEq] at h
        rcases h with ⟨hst, hrest⟩
        subst hst
        refine ⟨?_, ?_, ?_⟩
        · rw [← hv]
          simp [List.map_map, Function.comp_def]
        · rw [← hv2]
          unfold uniquePositives
          rfl
        · rw [← hv3]
          unfold uniqueNegatives
          rfl

/-- Witness for C5 at a one-sample split: query `"ab"` has average
length 2, the unique positive `"p"` average length 1, the unique
negative `"nn"` average length 2. -/
theorem c5_average_length_denominators_witness :
    (⟨1, 1, 1, 1, 1, 2, 1, 2⟩ : RerankStats).avg_query_len
        = (([(⟨"ab", ["p"], ["nn"]⟩ : Sample)]).map (fun sm => ((sm.query.length : ℚ)))).sum
          / (([(⟨"ab", ["p"], ["nn"]⟩ : Sample)]).length : ℚ) ∧
    (⟨1, 1, 1, 1, 1, 2, 1, 2⟩ : RerankStats).avg_positive_len
        = (∑ p ∈ uniquePositives [⟨"ab", ["p"], ["nn"]⟩], (p.length : ℚ))
          / ((uniquePositives [⟨"ab", ["p"], ["nn"]⟩]).card : ℚ) ∧
    (⟨1, 1, 1, 1, 1, 2, 1, 2⟩ : RerankStats).avg_negative_len
        = (∑ n ∈ uniqueNegatives [⟨"ab", ["p"], ["nn"]⟩], (n.length : ℚ))
          / ((uniqueNegatives [⟨"ab", ["p"], ["nn"]⟩]).card : ℚ) :=
  c5_average_length_denominators [⟨"ab", ["p"], ["nn"]⟩]
    ⟨1, 1, 1, 1, 1, 2, 1, 2⟩ [⟨"ab", ["p"], ["nn"]⟩] (by
      unfold load_data pyDiv
      simp [bind, Except.bind, pure, Except.pure]
      exact ⟨by norm_num [show "ab".length = 2 from rfl], rfl,
             by norm_num [show "nn".length = 2 from rfl]⟩)
